import Mathlib

/-!
Shallow embedding of the market-data query functions and the chat loop of
`chatbot.py` (repository AnkitAI).

The Python functions perform one HTTP GET each against the Moralis API and
format the decoded JSON into a text report.  We model:

* decoded JSON values (`Json`), with Python dictionary/list access semantics:
  bracket access raises `KeyError` on a missing key, `.get` returns `None`
  (here `Json.null`), `.get` on a non-dict raises `AttributeError`,
  iteration over a non-iterable raises `TypeError`;
* Python truthiness of JSON values (`pyTruthy`) and the string conversion
  performed by f-string interpolation (`pyStr`);
* Python exceptions (`PyExc`); the `except requests.exceptions.RequestException`
  clause of every query function catches only the `requestException`
  constructor, so every other exception propagates out of the function;
* the single HTTP round trip of each function: the external transport is a
  parameter `http : HttpRequest → HttpOutcome`, and `raise_for_status`
  raises a `requestException` exactly when the status code is in [400, 600),
  as the requests library does;
* the process environment: the module-level `MORALIS_API_KEY` read by
  `os.environ.get` is an `Option String` parameter, and the per-call read of
  `Wallet.network_id` is a `String` parameter supplied at each call (the
  wallet is an external collaborator; per the code each function re-reads the
  network id when invoked).

Each query function returns a `CallResult`: the Python return value or the
propagated exception, together with the list of HTTP requests it issued.
-/

/-- A decoded JSON value (`response.json()`).  Numbers are modelled as
integers; no claim depends on float formatting. -/
inductive Json where
  | null : Json
  | bool (b : Bool) : Json
  | num (n : Int) : Json
  | str (s : String) : Json
  | arr (xs : List Json) : Json
  | obj (kvs : List (String × Json)) : Json

/-- Python exceptions relevant to the embedded code. -/
inductive PyExc where
  | keyError (k : String) : PyExc
  | indexError : PyExc
  | typeError (msg : String) : PyExc
  | attributeError (msg : String) : PyExc
  | requestException (msg : String) : PyExc
deriving DecidableEq

/-- First binding of a key in an association list (Python dict lookup). -/
def jsonLookup : List (String × Json) → String → Option Json
  | [], _ => none
  | (k, v) :: kvs, key => if k = key then some v else jsonLookup kvs key

mutual

/-- Python `repr` of a JSON value (used by `str` on containers). -/
def pyRepr : Json → String
  | Json.null => "None"
  | Json.bool true => "True"
  | Json.bool false => "False"
  | Json.num n => toString n
  | Json.str s => "\x27" ++ s ++ "\x27"
  | Json.arr xs => "[" ++ pyReprSeq xs ++ "]"
  | Json.obj kvs => "\x7b" ++ pyReprKVs kvs ++ "\x7d"

/-- Comma-separated `repr` of list elements. -/
def pyReprSeq : List Json → String
  | [] => ""
  | [x] => pyRepr x
  | x :: xs => pyRepr x ++ ", " ++ pyReprSeq xs

/-- Comma-separated `repr` of dict entries. -/
def pyReprKVs : List (String × Json) → String
  | [] => ""
  | [(k, v)] => "\x27" ++ k ++ "\x27: " ++ pyRepr v
  | (k, v) :: kvs => "\x27" ++ k ++ "\x27: " ++ pyRepr v ++ ", " ++ pyReprKVs kvs
end

/-- Python `str` of a JSON value, as performed by f-string interpolation. -/
def pyStr : Json → String
  | Json.str s => s
  | j => pyRepr j

/-- Python truthiness of a JSON value. -/
def pyTruthy : Json → Bool
  | Json.null => false
  | Json.bool b => b
  | Json.num n => n != 0
  | Json.str s => !(s == "")
  | Json.arr xs => !xs.isEmpty
  | Json.obj kvs => !kvs.isEmpty

/-- Python `d.get(key, default)`: raises `AttributeError` unless `d` is a
dict, otherwise returns the bound value or the default. -/
def pyGetD (j : Json) (key : String) (dflt : Json) : Except PyExc Json :=
  match j with
  | Json.obj kvs => Except.ok ((jsonLookup kvs key).getD dflt)
  | _ => Except.error (PyExc.attributeError ("object has no attribute get: " ++ key))

/-- Python `d.get(key)` (default `None`). -/
def pyGet (j : Json) (key : String) : Except PyExc Json :=
  pyGetD j key Json.null

/-- Python `d[key]` with a string key: `KeyError` on a missing key,
`TypeError` when the value is not a dict. -/
def pyItem (j : Json) (key : String) : Except PyExc Json :=
  match j with
  | Json.obj kvs =>
    match jsonLookup kvs key with
    | some v => Except.ok v
    | none => Except.error (PyExc.keyError key)
  | Json.arr _ => Except.error (PyExc.typeError "list indices must be integers")
  | _ => Except.error (PyExc.typeError ("object is not subscriptable: " ++ key))

/-- Python `x[i]` with a numeric index. -/
def pyIndex (j : Json) (i : Nat) : Except PyExc Json :=
  match j with
  | Json.arr xs =>
    match xs.get? i with
    | some v => Except.ok v
    | none => Except.error PyExc.indexError
  | Json.obj _ => Except.error (PyExc.keyError (toString i))
  | _ => Except.error (PyExc.typeError "object is not subscriptable")

/-- Python iteration: lists yield elements, dicts yield keys, strings yield
one-character strings; anything else raises `TypeError`. -/
def pyIter (j : Json) : Except PyExc (List Json) :=
  match j with
  | Json.arr xs => Except.ok xs
  | Json.obj kvs => Except.ok (kvs.map (fun kv => Json.str kv.fst))
  | Json.str s => Except.ok (s.data.map (fun c => Json.str (String.singleton c)))
  | _ => Except.error (PyExc.typeError "object is not iterable")

/-- A Python list comprehension `[f x for x in xs]` over `Except`: elements in
order, the first exception propagates. -/
def mapExceptList (f : Json → Except PyExc String) : List Json → Except PyExc (List String)
  | [] => Except.ok []
  | x :: xs => do
    let y ← f x
    let ys ← mapExceptList f xs
    Except.ok (y :: ys)

/-- One outbound HTTP GET as built by a query function. -/
structure HttpRequest where
  url : String
  headers : List (String × Option String)
  params : List (String × String)
deriving DecidableEq

/-- The external transport behaviour for one request: either
`requests.get` raises a transport-level `RequestException`, or a response
arrives with a status code, a decoded JSON body and a raw text body. -/
inductive HttpOutcome where
  | failure (msg : String) : HttpOutcome
  | response (status : Nat) (body : Json) (text : String) : HttpOutcome

/-- The outcome of one query-function call: the Python return value (or the
exception that propagated) and the HTTP requests that were issued. -/
structure CallResult where
  result : Except PyExc String
  sent : List HttpRequest

/-- Python truthiness of `os.environ.get` output: `None` and the empty
string are falsy. -/
def envTruthy : Option String → Bool
  | none => false
  | some s => !(s == "")

/-- The header dict built by every query function. -/
def moralisHeaders (apiKey : Option String) : List (String × Option String) :=
  [("accept", some "application/json"), ("X-API-Key", apiKey)]

/-- The two-line network selection repeated in each function:
`is_mainnet = Wallet.network_id in ["base", "base-mainnet"]` and
`chain = "base" if is_mainnet else "base sepolia"`. -/
def chainFor (network_id : String) : String :=
  if network_id = "base" ∨ network_id = "base-mainnet" then "base" else "base sepolia"

/-- The message of the `HTTPError` raised by `response.raise_for_status()`
(the exact text is owned by the requests library; only that it is a
`RequestException` matters to the embedded code). -/
def raiseErrMsg (status : Nat) (url : String) : String :=
  if status < 500 then toString status ++ " Client Error: for url: " ++ url
  else toString status ++ " Server Error: for url: " ++ url

/-- `raise_for_status`: an `HTTPError` for any status in [400, 600). -/
def raiseForStatus (status : Nat) (url : String) : Except PyExc Unit :=
  if 400 ≤ status ∧ status < 600 then
    Except.error (PyExc.requestException (raiseErrMsg status url))
  else Except.ok ()

/-- `except requests.exceptions.RequestException as e: return handler(str(e))`:
only `requestException` is caught; every other exception propagates. -/
def catchRequestException (body : Except PyExc String) (handler : String → String) :
    Except PyExc String :=
  match body with
  | Except.error (PyExc.requestException m) => Except.ok (handler m)
  | r => r

/-- `get_token_metadata` from `chatbot.py` (lines 139-190). -/
def get_token_metadata (apiKey : Option String) (network_id : String)
    (http : HttpRequest → HttpOutcome) (token_address : String) : CallResult :=
  if !(envTruthy apiKey) then
    { result := Except.ok "Error: Moralis API key is missing. Please set the MORALIS_API_KEY environment variable.",
      sent := [] }
  else
    let chain := chainFor network_id
    let req : HttpRequest :=
      { url := "https://deep-index.moralis.io/api/v2.2/erc20/metadata",
        headers := moralisHeaders apiKey,
        params := [("chain", chain), ("addresses[0]", token_address)] }
    let body : Except PyExc String :=
      match http req with
      | HttpOutcome.failure msg => Except.error (PyExc.requestException msg)
      | HttpOutcome.response status jbody _ => do
        let _ ← raiseForStatus status req.url
        let metadata := jbody
        if pyTruthy metadata then do
          let token_data ← pyIndex metadata 0
          let name ← pyGet token_data "name"
          let symbol ← pyGet token_data "symbol"
          let decimals ← pyGet token_data "decimals"
          let supply ← pyGet token_data "total_supply_formatted"
          let address ← pyGet token_data "address"
          let verified ← pyGet token_data "verified_contract"
          let logo ← pyGet token_data "logo"
          Except.ok ("Token Name: " ++ pyStr name ++ "\n"
            ++ "Symbol: " ++ pyStr symbol ++ "\n"
            ++ "Decimals: " ++ pyStr decimals ++ "\n"
            ++ "Total Supply: " ++ pyStr supply ++ "\n"
            ++ "Contract Address: " ++ pyStr address ++ "\n"
            ++ "Verified: " ++ pyStr verified ++ "\n"
            ++ "Logo URL: " ++ pyStr logo ++ "\n")
        else
          Except.ok "No metadata found for the provided token address."
    { result := catchRequestException body (fun m => "Error fetching token metadata: " ++ m),
      sent := [req] }

/-- One iteration of the list comprehension in `get_wallet_tokens`
(lines 224-232): bracket access on each field, `Yes`/`No` from the verified
flag, and `token["usd_price"] or "N/A"` for the price line. -/
def formatWalletToken (token : Json) : Except PyExc String := do
  let name ← pyItem token "name"
  let symbol ← pyItem token "symbol"
  let balance ← pyItem token "balance_formatted"
  let address ← pyItem token "token_address"
  let verified ← pyItem token "verified_contract"
  let usd ← pyItem token "usd_price"
  Except.ok ("Token: " ++ pyStr name ++ " (" ++ pyStr symbol ++ ")\n"
    ++ "Balance: " ++ pyStr balance ++ " " ++ pyStr symbol ++ "\n"
    ++ "Contract Address: " ++ pyStr address ++ "\n"
    ++ "Verified: " ++ (if pyTruthy verified then "Yes" else "No") ++ "\n"
    ++ "Price (USD): " ++ (if pyTruthy usd then pyStr usd else "N/A") ++ "\n")

/-- `get_wallet_tokens` from `chatbot.py` (lines 192-239).  Note there is no
API-key check: the request is built and sent with whatever key value the
environment held. -/
def get_wallet_tokens (apiKey : Option String) (network_id : String)
    (http : HttpRequest → HttpOutcome) (token_address : String) : CallResult :=
  let address_id := token_address
  let chain := chainFor network_id
  let req : HttpRequest :=
    { url := "https://deep-index.moralis.io/api/v2.2/wallets/" ++ address_id ++ "/tokens",
      headers := moralisHeaders apiKey,
      params := [("chain", chain)] }
  let body : Except PyExc String :=
    match http req with
    | HttpOutcome.failure msg => Except.error (PyExc.requestException msg)
    | HttpOutcome.response status jbody _ => do
      let _ ← raiseForStatus status req.url
      let tokens ← pyGetD jbody "result" (Json.arr [])
      if pyTruthy tokens then do
        let elems ← pyIter tokens
        let blocks ← mapExceptList formatWalletToken elems
        Except.ok ("Tokens held by " ++ address_id ++ ":\n" ++ String.intercalate "\n" blocks)
      else
        Except.ok ("No tokens found for wallet " ++ address_id ++ ".")
  { result := catchRequestException body (fun m => "Error fetching wallet tokens: " ++ m),
    sent := [req] }

/-- `get_token_details` from `chatbot.py` (lines 241-289).  The three nested
fields use bracket access on the response followed by `.get`. -/
def get_token_details (apiKey : Option String) (network_id : String)
    (http : HttpRequest → HttpOutcome) (token_address : String) : CallResult :=
  let chain := chainFor network_id
  let req : HttpRequest :=
    { url := "https://deep-index.moralis.io/api/v2.2/discovery/token",
      headers := moralisHeaders apiKey,
      params := [("chain", chain), ("token_address", token_address)] }
  let body : Except PyExc String :=
    match http req with
    | HttpOutcome.failure msg => Except.error (PyExc.requestException msg)
    | HttpOutcome.response status jbody _ => do
      let _ ← raiseForStatus status req.url
      let token_data := jbody
      let name ← pyGet token_data "token_name"
      let symbol ← pyGet token_data "token_symbol"
      let price ← pyGet token_data "price_usd"
      let mcap ← pyGet token_data "market_cap"
      let score ← pyGet token_data "security_score"
      let age ← pyGet token_data "token_age_in_days"
      let strength ← pyGet token_data "on_chain_strength_index"
      let hc ← pyItem token_data "holders_change"
      let hc1d ← pyGet hc "1d"
      let vc ← pyItem token_data "volume_change_usd"
      let vc1d ← pyGet vc "1d"
      let pc ← pyItem token_data "price_percent_change_usd"
      let pc1m ← pyGet pc "1M"
      let logo ← pyGet token_data "token_logo"
      Except.ok ("Token Name: " ++ pyStr name ++ "\n"
        ++ "Symbol: " ++ pyStr symbol ++ "\n"
        ++ "Price (USD): " ++ pyStr price ++ "\n"
        ++ "Market Cap: " ++ pyStr mcap ++ "\n"
        ++ "Security Score: " ++ pyStr score ++ "\n"
        ++ "Token Age (days): " ++ pyStr age ++ "\n"
        ++ "On-Chain Strength Index: " ++ pyStr strength ++ "\n"
        ++ "1-Day Holders Change: " ++ pyStr hc1d ++ "\n"
        ++ "1-Day Volume Change (USD): " ++ pyStr vc1d ++ "\n"
        ++ "1-Month Price Change (%): " ++ pyStr pc1m ++ "\n"
        ++ "Logo: " ++ pyStr logo ++ "\n")
  { result := catchRequestException body (fun m => "Error fetching token details: " ++ m),
    sent := [req] }

/-- `get_wallet_nfts` from `chatbot.py` (lines 291-324): returns the raw
response text without parsing it. -/
def get_wallet_nfts (apiKey : Option String) (network_id : String)
    (http : HttpRequest → HttpOutcome) (token_address : String) : CallResult :=
  let wallet_address := token_address
  let chain := chainFor network_id
  let req : HttpRequest :=
    { url := "https://deep-index.moralis.io/api/v2.2/" ++ wallet_address ++ "/nft",
      headers := moralisHeaders apiKey,
      params := [("chain", chain), ("format", "decimal"), ("media_items", "false")] }
  let body : Except PyExc String :=
    match http req with
    | HttpOutcome.failure msg => Except.error (PyExc.requestException msg)
    | HttpOutcome.response status _ text => do
      let _ ← raiseForStatus status req.url
      Except.ok text
  { result := catchRequestException body (fun m => "Error fetching wallet NFTs: " ++ m),
    sent := [req] }

/-- One iteration of the list comprehension in `get_token_pairs`
(lines 359-369): bracket access throughout, including the nested
`pair["pair"][0]` / `pair["pair"][1]` token objects. -/
def formatPair (pair : Json) : Except PyExc String := do
  let label ← pyItem pair "pair_label"
  let price ← pyItem pair "usd_price"
  let change ← pyItem pair "usd_price_24hr_percent_change"
  let liq ← pyItem pair "liquidity_usd"
  let ex ← pyItem pair "exchange_address"
  let parr0 ← pyItem pair "pair"
  let base ← pyIndex parr0 0
  let baseName ← pyItem base "token_name"
  let baseSym ← pyItem base "token_symbol"
  let parr1 ← pyItem pair "pair"
  let quote ← pyIndex parr1 1
  let quoteName ← pyItem quote "token_name"
  let quoteSym ← pyItem quote "token_symbol"
  Except.ok ("Pair: " ++ pyStr label ++ "\n"
    ++ "Price (USD): " ++ pyStr price ++ "\n"
    ++ "24hr Price Change (%): " ++ pyStr change ++ "\n"
    ++ "Liquidity (USD): " ++ pyStr liq ++ "\n"
    ++ "Exchange Address: " ++ pyStr ex ++ "\n"
    ++ "Base Token: " ++ pyStr baseName ++ " (" ++ pyStr baseSym ++ ")\n"
    ++ "Quote Token: " ++ pyStr quoteName ++ " (" ++ pyStr quoteSym ++ ")\n")

/-- `get_token_pairs` from `chatbot.py` (lines 327-376). -/
def get_token_pairs (apiKey : Option String) (network_id : String)
    (http : HttpRequest → HttpOutcome) (token_address : String) : CallResult :=
  let chain := chainFor network_id
  let req : HttpRequest :=
    { url := "https://deep-index.moralis.io/api/v2.2/erc20/" ++ token_address ++ "/pairs",
      headers := moralisHeaders apiKey,
      params := [("chain", chain)] }
  let body : Except PyExc String :=
    match http req with
    | HttpOutcome.failure msg => Except.error (PyExc.requestException msg)
    | HttpOutcome.response status jbody _ => do
      let _ ← raiseForStatus status req.url
      let pairs ← pyGetD jbody "pairs" (Json.arr [])
      if pyTruthy pairs then do
        let elems ← pyIter pairs
        let blocks ← mapExceptList formatPair elems
        Except.ok ("Trading pairs for token " ++ token_address ++ ":\n"
          ++ String.intercalate "\n" blocks)
      else
        Except.ok ("No trading pairs found for token " ++ token_address ++ ".")
  { result := catchRequestException body (fun m => "Error fetching token pairs: " ++ m),
    sent := [req] }

/-- One iteration of the list comprehension in `get_trending_tokens`
(lines 407-416): bracket access on every field. -/
def formatTrendingToken (token : Json) : Except PyExc String := do
  let name ← pyItem token "token_name"
  let symbol ← pyItem token "token_symbol"
  let price ← pyItem token "price_usd"
  let mcap ← pyItem token "market_cap"
  let score ← pyItem token "security_score"
  let logo ← pyItem token "token_logo"
  Except.ok ("Token Name: " ++ pyStr name ++ " (" ++ pyStr symbol ++ ")\n"
    ++ "Price (USD): " ++ pyStr price ++ "\n"
    ++ "Market Cap: " ++ pyStr mcap ++ "\n"
    ++ "Security Score: " ++ pyStr score ++ "\n"
    ++ "Logo: " ++ pyStr logo ++ "\n")

/-- `get_trending_tokens` from `chatbot.py` (lines 379-420): always sends
chain `"base"` and never reads the wallet network id; there is no emptiness
check, so an empty token list yields the bare header. -/
def get_trending_tokens (apiKey : Option String)
    (http : HttpRequest → HttpOutcome) (security_score min_market_cap : Int) : CallResult :=
  let req : HttpRequest :=
    { url := "https://deep-index.moralis.io/api/v2.2/discovery/tokens/trending",
      headers := moralisHeaders apiKey,
      params := [("chain", "base"),
                 ("security_score", toString security_score),
                 ("min_market_cap", toString min_market_cap)] }
  let body : Except PyExc String :=
    match http req with
    | HttpOutcome.failure msg => Except.error (PyExc.requestException msg)
    | HttpOutcome.response status jbody _ => do
      let _ ← raiseForStatus status req.url
      let elems ← pyIter jbody
      let blocks ← mapExceptList formatTrendingToken elems
      Except.ok ("Trending Tokens:\n" ++ String.intercalate "\n" blocks)
  { result := catchRequestException body (fun m => "Error fetching trending tokens: " ++ m),
    sent := [req] }

/-- The pydantic schema `TrendingTokensInput` (lines 114-126): defaults 80
and 100000, bounds `ge=0, le=100` on the score and `ge=0` on the market cap.
Validation happens before the bound function runs (pydantic semantics of the
`args_schema` wiring in `initialize_agent`). -/
def validateTrendingTokensInput (security_score min_market_cap : Option Int) :
    Except String (Int × Int) :=
  let ss := security_score.getD 80
  let mc := min_market_cap.getD 100000
  if ss < 0 then Except.error "security_score: input should be greater than or equal to 0"
  else if 100 < ss then Except.error "security_score: input should be less than or equal to 100"
  else if mc < 0 then Except.error "min_market_cap: input should be greater than or equal to 0"
  else Except.ok (ss, mc)

/-- The registered trending-tokens tool: schema validation first, and only on
success is `get_trending_tokens` invoked (so a validation failure sends no
HTTP request). -/
def get_trending_tokens_tool (apiKey : Option String) (http : HttpRequest → HttpOutcome)
    (security_score min_market_cap : Option Int) : Except String CallResult :=
  match validateTrendingTokensInput security_score min_market_cap with
  | Except.error e => Except.error e
  | Except.ok sm => Except.ok (get_trending_tokens apiKey http sm.fst sm.snd)

/-- Python `str.lower` as applied to user input in `run_chat_mode`. -/
def pyLower (s : String) : String :=
  String.mk (s.data.map Char.toLower)

/-- How a chat session ended: by the exit sentinel, or by running out of
modelled user inputs. -/
inductive ChatEnd where
  | exited : ChatEnd
  | ranOut : ChatEnd
deriving DecidableEq

/-- `run_chat_mode` from `chatbot.py` (lines 574-594), over a list of user
inputs: returns the inputs forwarded to `agent_executor.stream` in order,
and how the loop ended.  An input whose lowercase form is `"exit"` breaks
the loop without being forwarded. -/
def run_chat_mode : List String → List String × ChatEnd
  | [] => ([], ChatEnd.ranOut)
  | s :: rest =>
    if pyLower s = "exit" then ([], ChatEnd.exited)
    else
      let r := run_chat_mode rest
      (s :: r.fst, r.snd)

/-- The body has a dict shape holding every listed key. -/
def hasKeysB (j : Json) (ks : List String) : Bool :=
  match j with
  | Json.obj kvs => ks.all (fun k => (jsonLookup kvs k).isSome)
  | _ => false

def walletTokenShaped (j : Json) : Bool :=
  hasKeysB j ["name", "symbol", "balance_formatted", "token_address",
              "verified_contract", "usd_price"]

def walletTokensBodyShaped (body : Json) : Bool :=
  match body with
  | Json.obj kvs =>
    match jsonLookup kvs "result" with
    | none => true
    | some Json.null => true
    | some (Json.arr xs) => xs.all walletTokenShaped
    | some _ => false
  | _ => false

def outcomeSafeFor (shaped : Json → Bool) : HttpOutcome → Bool
  | HttpOutcome.failure _ => true
  | HttpOutcome.response status body _ =>
    if 400 ≤ status ∧ status < 600 then true else shaped body

def metadataBodyShaped : Json → Bool
  | Json.arr [] => true
  | Json.arr (Json.obj _ :: _) => true
  | _ => false

def detailsBodyShaped (body : Json) : Bool :=
  match body with
  | Json.obj kvs =>
    (match jsonLookup kvs "holders_change" with
     | some (Json.obj _) => true
     | _ => false) &&
    (match jsonLookup kvs "volume_change_usd" with
     | some (Json.obj _) => true
     | _ => false) &&
    (match jsonLookup kvs "price_percent_change_usd" with
     | some (Json.obj _) => true
     | _ => false)
  | _ => false

def pairEntryShaped (j : Json) : Bool :=
  match j with
  | Json.obj kvs =>
    hasKeysB (Json.obj kvs) ["pair_label", "usd_price", "usd_price_24hr_percent_change",
      "liquidity_usd", "exchange_address"] &&
    (match jsonLookup kvs "pair" with
     | some (Json.arr (Json.obj b :: Json.obj q :: _)) =>
       hasKeysB (Json.obj b) ["token_name", "token_symbol"] &&
       hasKeysB (Json.obj q) ["token_name", "token_symbol"]
     | _ => false)
  | _ => false

def pairsBodyShaped (body : Json) : Bool :=
  match body with
  | Json.obj kvs =>
    match jsonLookup kvs "pairs" with
    | none => true
    | some Json.null => true
    | some (Json.arr xs) => xs.all pairEntryShaped
    | some _ => false
  | _ => false

def trendingTokenShaped (j : Json) : Bool :=
  hasKeysB j ["token_name", "token_symbol", "price_usd", "market_cap",
              "security_score", "token_logo"]

def trendingBodyShaped : Json → Bool
  | Json.arr xs => xs.all trendingTokenShaped
  | _ => false

def isHttpFailureOutcome : HttpOutcome → Bool
  | HttpOutcome.failure _ => true
  | HttpOutcome.response status _ _ => decide (400 ≤ status ∧ status < 600)

/-- C1 counterexample body: a successful response whose token entry misses
the `name` key. -/
def c1_missingNameBody : Json :=
  Json.obj [("result", Json.arr [Json.obj [("symbol", Json.str "TOK")]])]

/-- The chain query parameter of each request a call issued. -/
def sentChains (c : CallResult) : List (Option String) :=
  c.sent.map (fun r => List.lookup "chain" r.params)

/-- Split a character list at newlines (kernel-friendly `splitOn "\\n"`). -/
def splitOnNl : List Char → List (List Char)
  | [] => [[]]
  | c :: cs =>
    match splitOnNl cs with
    | [] => [[c]]
    | l :: ls => if c = '\n' then [] :: l :: ls else (c :: l) :: ls

/-- The lines of a report string. -/
def strLines (s : String) : List String :=
  (splitOnNl s.data).map String.mk

/-- The mocked single-pair response of the end-to-end example. -/
def examplePairsBody : Json :=
  Json.obj [("pairs", Json.arr [Json.obj [
    ("pair_label", Json.str "WETH/USDC"),
    ("usd_price", Json.str "3000.5"),
    ("usd_price_24hr_percent_change", Json.str "-1.2"),
    ("liquidity_usd", Json.str "500000"),
    ("exchange_address", Json.str "0xEx"),
    ("pair", Json.arr [
      Json.obj [("token_name", Json.str "Wrapped Ether"), ("token_symbol", Json.str "WETH")],
      Json.obj [("token_name", Json.str "USD Coin"), ("token_symbol", Json.str "USDC")]])]])]

/-- C8 counterexample body: one held token whose object has every rendered
key except `usd_price`. -/
def missingPriceBody : Json :=
  Json.obj [("result", Json.arr [Json.obj [
    ("name", Json.str "Zero"), ("symbol", Json.str "ZRO"),
    ("balance_formatted", Json.str "1"), ("token_address", Json.str "0xT"),
    ("verified_contract", Json.bool true)]])]

/-- Wallet-tokens body with one entry whose `usd_price` is the given value. -/
def walletBodyWithPrice (v : Json) : Json :=
  Json.obj [("result", Json.arr [Json.obj [
    ("name", Json.str "Zero"), ("symbol", Json.str "ZRO"),
    ("balance_formatted", Json.str "1"), ("token_address", Json.str "0xT"),
    ("verified_contract", Json.bool true), ("usd_price", v)]])]

lemma pyItem_eq {kvs : List (String × Json)} {k : String} {v : Json}
    (h : jsonLookup kvs k = some v) : pyItem (Json.obj kvs) k = Except.ok v := by
  simp [pyItem, h]

lemma formatWalletToken_ok (j : Json) (h : walletTokenShaped j = true) :
    ∃ s, formatWalletToken j = Except.ok s := by
  cases j with
  | obj kvs =>
    simp only [walletTokenShaped, hasKeysB, List.all_cons, List.all_nil,
      Bool.and_eq_true, Bool.and_true, Option.isSome_iff_exists] at h
    obtain ⟨⟨v1, h1⟩, ⟨v2, h2⟩, ⟨v3, h3⟩, ⟨v4, h4⟩, ⟨v5, h5⟩, ⟨v6, h6⟩⟩ := h
    simp [formatWalletToken, pyItem_eq h1, pyItem_eq h2, pyItem_eq h3,
      pyItem_eq h4, pyItem_eq h5, pyItem_eq h6, Bind.bind, Except.bind]
  | null => simp [walletTokenShaped, hasKeysB] at h
  | bool b => simp [walletTokenShaped, hasKeysB] at h
  | num n => simp [walletTokenShaped, hasKeysB] at h
  | str s => simp [walletTokenShaped, hasKeysB] at h
  | arr xs => simp [walletTokenShaped, hasKeysB] at h

lemma mapExceptList_ok (f : Json → Except PyExc String) :
    ∀ xs : List Json, (∀ x ∈ xs, ∃ s, f x = Except.ok s) →
      ∃ l, mapExceptList f xs = Except.ok l := by
  intro xs
  induction xs with
  | nil => intro _; exact ⟨[], rfl⟩
  | cons x xs ih =>
    intro h
    obtain ⟨s, hs⟩ := h x (List.mem_cons_self x xs)
    obtain ⟨l, hl⟩ := ih (fun y hy => h y (List.mem_cons_of_mem x hy))
    exact ⟨s :: l, by simp [mapExceptList, hs, hl, Bind.bind, Except.bind]⟩

lemma get_wallet_tokens_ok (k : Option String) (nid addr : String) (out : HttpOutcome)
    (h : outcomeSafeFor walletTokensBodyShaped out = true) :
    ∃ s, (get_wallet_tokens k nid (fun _ => out) addr).result = Except.ok s := by
  cases out with
  | failure msg => exact ⟨_, rfl⟩
  | response status jbody text =>
    by_cases hs : 400 ≤ status ∧ status < 600
    · simp [get_wallet_tokens, catchRequestException, raiseForStatus, hs,
        Bind.bind, Except.bind]
    · simp only [outcomeSafeFor, if_neg hs] at h
      cases jbody with
      | obj kvs =>
        rcases hres : jsonLookup kvs "result" with _ | v
        · simp [get_wallet_tokens, catchRequestException, raiseForStatus, hs,
            pyGetD, hres, pyTruthy, Bind.bind, Except.bind]
        · simp only [walletTokensBodyShaped, hres] at h
          cases v with
          | null =>
            simp [get_wallet_tokens, catchRequestException, raiseForStatus, hs,
              pyGetD, hres, pyTruthy, Bind.bind, Except.bind]
          | arr xs =>
            cases xs with
            | nil =>
              simp [get_wallet_tokens, catchRequestException, raiseForStatus, hs,
                pyGetD, hres, pyTruthy, Bind.bind, Except.bind]
            | cons x xs =>
              have hall : ∀ y ∈ x :: xs, ∃ s, formatWalletToken y = Except.ok s := by
                intro y hy
                exact formatWalletToken_ok y (by
                  have := List.all_eq_true.mp h y hy
                  exact this)
              obtain ⟨l, hl⟩ := mapExceptList_ok formatWalletToken (x :: xs) hall
              simp [get_wallet_tokens, catchRequestException, raiseForStatus, hs,
                pyGetD, hres, pyTruthy, pyIter, hl, Bind.bind, Except.bind]
          | bool b => simp at h
          | num n => simp at h
          | str s => simp at h
          | obj kvs2 => simp at h
      | null => simp [walletTokensBodyShaped] at h
      | bool b => simp [walletTokensBodyShaped] at h
      | num n => simp [walletTokensBodyShaped] at h
      | str s => simp [walletTokensBodyShaped] at h
      | arr xs => simp [walletTokensBodyShaped] at h

lemma get_token_metadata_ok (k : Option String) (nid addr : String) (out : HttpOutcome)
    (h : outcomeSafeFor metadataBodyShaped out = true) :
    ∃ s, (get_token_metadata k nid (fun _ => out) addr).result = Except.ok s := by
  by_cases hk : envTruthy k = true
  · cases out with
    | failure msg => simp [get_token_metadata, hk, catchRequestException]
    | response status jbody text =>
      by_cases hs : 400 ≤ status ∧ status < 600
      · simp [get_token_metadata, hk, catchRequestException, raiseForStatus, hs,
          Bind.bind, Except.bind]
      · simp only [outcomeSafeFor, if_neg hs] at h
        cases jbody with
        | arr xs =>
          cases xs with
          | nil =>
            simp [get_token_metadata, hk, catchRequestException, raiseForStatus, hs,
              pyTruthy, Bind.bind, Except.bind]
          | cons x rest =>
            cases x with
            | obj o =>
              simp [get_token_metadata, hk, catchRequestException, raiseForStatus, hs,
                pyTruthy, pyIndex, pyGet, pyGetD, Bind.bind, Except.bind]
            | null => simp [metadataBodyShaped] at h
            | bool b => simp [metadataBodyShaped] at h
            | num n => simp [metadataBodyShaped] at h
            | str s => simp [metadataBodyShaped] at h
            | arr ys => simp [metadataBodyShaped] at h
        | null => simp [metadataBodyShaped] at h
        | bool b => simp [metadataBodyShaped] at h
        | num n => simp [metadataBodyShaped] at h
        | str s => simp [metadataBodyShaped] at h
        | obj kvs => simp [metadataBodyShaped] at h
  · simp [get_token_metadata, hk]

lemma get_token_details_ok (k : Option String) (nid addr : String) (out : HttpOutcome)
    (h : outcomeSafeFor detailsBodyShaped out = true) :
    ∃ s, (get_token_details k nid (fun _ => out) addr).result = Except.ok s := by
  cases out with
  | failure msg => exact ⟨_, rfl⟩
  | response status jbody text =>
    by_cases hs : 400 ≤ status ∧ status < 600
    · simp [get_token_details, catchRequestException, raiseForStatus, hs,
        Bind.bind, Except.bind]
    · simp only [outcomeSafeFor, if_neg hs] at h
      cases jbody with
      | obj kvs =>
        simp only [detailsBodyShaped, Bool.and_eq_true] at h
        obtain ⟨⟨h1, h2⟩, h3⟩ := h
        rcases e1 : jsonLookup kvs "holders_change" with _ | v1 <;> rw [e1] at h1 <;>
          try simp at h1
        rcases e2 : jsonLookup kvs "volume_change_usd" with _ | v2 <;> rw [e2] at h2 <;>
          try simp at h2
        rcases e3 : jsonLookup kvs "price_percent_change_usd" with _ | v3 <;> rw [e3] at h3 <;>
          try simp at h3
        cases v1 <;> try simp at h1
        cases v2 <;> try simp at h2
        cases v3 <;> try simp at h3
        simp [get_token_details, catchRequestException, raiseForStatus, hs,
          pyGet, pyGetD, pyItem_eq e1, pyItem_eq e2, pyItem_eq e3, Bind.bind, Except.bind]
      | null => simp [detailsBodyShaped] at h
      | bool b => simp [detailsBodyShaped] at h
      | num n => simp [detailsBodyShaped] at h
      | str s => simp [detailsBodyShaped] at h
      | arr xs => simp [detailsBodyShaped] at h

lemma get_wallet_nfts_ok (k : Option String) (nid addr : String) (out : HttpOutcome) :
    ∃ s, (get_wallet_nfts k nid (fun _ => out) addr).result = Except.ok s := by
  cases out with
  | failure msg => exact ⟨_, rfl⟩
  | response status jbody text =>
    by_cases hs : 400 ≤ status ∧ status < 600
    · simp [get_wallet_nfts, catchRequestException, raiseForStatus, hs,
        Bind.bind, Except.bind]
    · simp [get_wallet_nfts, catchRequestException, raiseForStatus, hs,
        Bind.bind, Except.bind]

lemma formatPair_ok (j : Json) (h : pairEntryShaped j = true) :
    ∃ s, formatPair j = Except.ok s := by
  cases j with
  | obj kvs =>
    simp only [pairEntryShaped, Bool.and_eq_true] at h
    obtain ⟨hkeys, hpair⟩ := h
    simp only [hasKeysB, List.all_cons, List.all_nil, Bool.and_eq_true, Bool.and_true,
      Option.isSome_iff_exists] at hkeys
    obtain ⟨⟨v1, h1⟩, ⟨v2, h2⟩, ⟨v3, h3⟩, ⟨v4, h4⟩, ⟨v5, h5⟩⟩ := hkeys
    rcases ep : jsonLookup kvs "pair" with _ | vp <;> rw [ep] at hpair
    · simp at hpair
    · cases vp with
      | arr xs =>
        cases xs with
        | nil => simp at hpair
        | cons x1 t1 =>
          cases x1 with
          | obj b =>
            cases t1 with
            | nil => simp at hpair
            | cons x2 t2 =>
              cases x2 with
              | obj q =>
                simp only [Bool.and_eq_true, hasKeysB, List.all_cons, List.all_nil,
                  Bool.and_true, Option.isSome_iff_exists] at hpair
                obtain ⟨⟨⟨bn, hbn⟩, ⟨bs, hbs⟩⟩, ⟨qn, hqn⟩, ⟨qs, hqs⟩⟩ := hpair
                simp [formatPair, pyItem_eq h1, pyItem_eq h2, pyItem_eq h3, pyItem_eq h4,
                  pyItem_eq h5, pyItem_eq ep, pyItem_eq hbn, pyItem_eq hbs, pyItem_eq hqn,
                  pyItem_eq hqs, pyIndex, Bind.bind, Except.bind]
              | null => simp at hpair
              | bool c => simp at hpair
              | num c => simp at hpair
              | str c => simp at hpair
              | arr c => simp at hpair
          | null => simp at hpair
          | bool c => simp at hpair
          | num c => simp at hpair
          | str c => simp at hpair
          | arr c => simp at hpair
      | null => simp at hpair
      | bool c => simp at hpair
      | num c => simp at hpair
      | str c => simp at hpair
      | obj c => simp at hpair
  | null => simp [pairEntryShaped] at h
  | bool b => simp [pairEntryShaped] at h
  | num n => simp [pairEntryShaped] at h
  | str s => simp [pairEntryShaped] at h
  | arr xs => simp [pairEntryShaped] at h

lemma get_token_pairs_ok (k : Option String) (nid addr : String) (out : HttpOutcome)
    (h : outcomeSafeFor pairsBodyShaped out = true) :
    ∃ s, (get_token_pairs k nid (fun _ => out) addr).result = Except.ok s := by
  cases out with
  | failure msg => exact ⟨_, rfl⟩
  | response status jbody text =>
    by_cases hs : 400 ≤ status ∧ status < 600
    · simp [get_token_pairs, catchRequestException, raiseForStatus, hs,
        Bind.bind, Except.bind]
    · simp only [outcomeSafeFor, if_neg hs] at h
      cases jbody with
      | obj kvs =>
        rcases hres : jsonLookup kvs "pairs" with _ | v
        · simp [get_token_pairs, catchRequestException, raiseForStatus, hs,
            pyGetD, hres, pyTruthy, Bind.bind, Except.bind]
        · simp only [pairsBodyShaped, hres] at h
          cases v with
          | null =>
            simp [get_token_pairs, catchRequestException, raiseForStatus, hs,
              pyGetD, hres, pyTruthy, Bind.bind, Except.bind]
          | arr xs =>
            cases xs with
            | nil =>
              simp [get_token_pairs, catchRequestException, raiseForStatus, hs,
                pyGetD, hres, pyTruthy, Bind.bind, Except.bind]
            | cons x xs =>
              have hall : ∀ y ∈ x :: xs, ∃ s, formatPair y = Except.ok s := by
                intro y hy
                exact formatPair_ok y (List.all_eq_true.mp h y hy)
              obtain ⟨l, hl⟩ := mapExceptList_ok formatPair (x :: xs) hall
              simp [get_token_pairs, catchRequestException, raiseForStatus, hs,
                pyGetD, hres, pyTruthy, pyIter, hl, Bind.bind, Except.bind]
          | bool b => simp at h
          | num n => simp at h
          | str s => simp at h
          | obj kvs2 => simp at h
      | null => simp [pairsBodyShaped] at h
      | bool b => simp [pairsBodyShaped] at h
      | num n => simp [pairsBodyShaped] at h
      | str s => simp [pairsBodyShaped] at h
      | arr xs => simp [pairsBodyShaped] at h

lemma formatTrendingToken_ok (j : Json) (h : trendingTokenShaped j = true) :
    ∃ s, formatTrendingToken j = Except.ok s := by
  cases j with
  | obj kvs =>
    simp only [trendingTokenShaped, hasKeysB, List.all_cons, List.all_nil,
      Bool.and_eq_true, Bool.and_true, Option.isSome_iff_exists] at h
    obtain ⟨⟨v1, h1⟩, ⟨v2, h2⟩, ⟨v3, h3⟩, ⟨v4, h4⟩, ⟨v5, h5⟩, ⟨v6, h6⟩⟩ := h
    simp [formatTrendingToken, pyItem_eq h1, pyItem_eq h2, pyItem_eq h3,
      pyItem_eq h4, pyItem_eq h5, pyItem_eq h6, Bind.bind, Except.bind]
  | null => simp [trendingTokenShaped, hasKeysB] at h
  | bool b => simp [trendingTokenShaped, hasKeysB] at h
  | num n => simp [trendingTokenShaped, hasKeysB] at h
  | str s => simp [trendingTokenShaped, hasKeysB] at h
  | arr xs => simp [trendingTokenShaped, hasKeysB] at h

lemma get_trending_tokens_ok (k : Option String) (out : HttpOutcome) (ss mc : Int)
    (h : outcomeSafeFor trendingBodyShaped out = true) :
    ∃ s, (get_trending_tokens k (fun _ => out) ss mc).result = Except.ok s := by
  cases out with
  | failure msg => exact ⟨_, rfl⟩
  | response status jbody text =>
    by_cases hs : 400 ≤ status ∧ status < 600
    · simp [get_trending_tokens, catchRequestException, raiseForStatus, hs,
        Bind.bind, Except.bind]
    · simp only [outcomeSafeFor, if_neg hs] at h
      cases jbody with
      | arr xs =>
        simp only [trendingBodyShaped] at h
        have hall : ∀ y ∈ xs, ∃ s, formatTrendingToken y = Except.ok s := by
          intro y hy
          exact formatTrendingToken_ok y (List.all_eq_true.mp h y hy)
        obtain ⟨l, hl⟩ := mapExceptList_ok formatTrendingToken xs hall
        simp [get_trending_tokens, catchRequestException, raiseForStatus, hs,
          pyIter, hl, Bind.bind, Except.bind]
      | null => simp [trendingBodyShaped] at h
      | bool b => simp [trendingBodyShaped] at h
      | num n => simp [trendingBodyShaped] at h
      | str s => simp [trendingBodyShaped] at h
      | obj kvs => simp [trendingBodyShaped] at h

lemma errPrefix_append (pre m : String) (h : "Error ".data <+: pre.data) :
    "Error ".data <+: (pre ++ m).data := by
  rw [String.data_append]
  exact h.trans (List.prefix_append pre.data m.data)

lemma subjPrefix_append (subj pre m : String) (h : subj.data <+: pre.data) :
    subj.data <+: (pre ++ m).data := by
  rw [String.data_append]
  exact h.trans (List.prefix_append pre.data m.data)

lemma not_error_prefix_of_head (s t : String) (c : Char) (l : List Char)
    (hdata : s.data = c :: l) (hc : c ≠ 'E') : ¬ ("Error ".data <+: (s ++ t).data) := by
  rw [String.data_append, hdata, List.cons_append]
  rw [show "Error ".data = 'E' :: "rror ".data from rfl]
  intro hp
  rw [List.cons_prefix_cons] at hp
  exact hc hp.1.symm

/-- C1, counterexample: on a successful response whose token object has no
`name` key, `get_wallet_tokens` raises a `KeyError` out of the function
instead of returning a string: the `except` clause catches only
`RequestException`. -/
theorem wallet_tokens_keyerror_escapes :
    (get_wallet_tokens (some "key") "base"
        (fun _ => HttpOutcome.response 200 c1_missingNameBody "") "0xW").result
      = Except.error (PyExc.keyError "name") := rfl

/-- C1 (amended): every query function returns a string (no exception
propagates) on any transport failure, any HTTP error status, and any
successful response whose JSON has the shape the function dereferences
(all bracket-accessed keys present); `get_wallet_nfts` returns a string on
every outcome.  Responses with missing accessed keys instead raise. -/
theorem queries_return_strings_on_shaped_responses
    (k : Option String) (nid addr : String) (out : HttpOutcome) (ss mc : Int) :
    (outcomeSafeFor metadataBodyShaped out = true →
       ∃ s, (get_token_metadata k nid (fun _ => out) addr).result = Except.ok s)
  ∧ (outcomeSafeFor walletTokensBodyShaped out = true →
       ∃ s, (get_wallet_tokens k nid (fun _ => out) addr).result = Except.ok s)
  ∧ (outcomeSafeFor detailsBodyShaped out = true →
       ∃ s, (get_token_details k nid (fun _ => out) addr).result = Except.ok s)
  ∧ (∃ s, (get_wallet_nfts k nid (fun _ => out) addr).result = Except.ok s)
  ∧ (outcomeSafeFor pairsBodyShaped out = true →
       ∃ s, (get_token_pairs k nid (fun _ => out) addr).result = Except.ok s)
  ∧ (outcomeSafeFor trendingBodyShaped out = true →
       ∃ s, (get_trending_tokens k (fun _ => out) ss mc).result = Except.ok s) :=
  ⟨get_token_metadata_ok k nid addr out,
   get_wallet_tokens_ok k nid addr out,
   get_token_details_ok k nid addr out,
   get_wallet_nfts_ok k nid addr out,
   get_token_pairs_ok k nid addr out,
   get_trending_tokens_ok k out ss mc⟩

/-- Witness for the amended C1 at a concrete transport failure. -/
theorem queries_return_strings_on_shaped_responses_witness :
    (∃ s, (get_token_metadata (some "k") "base" (fun _ => HttpOutcome.failure "boom") "0xA").result = Except.ok s)
  ∧ (∃ s, (get_wallet_tokens (some "k") "base" (fun _ => HttpOutcome.failure "boom") "0xA").result = Except.ok s)
  ∧ (∃ s, (get_token_details (some "k") "base" (fun _ => HttpOutcome.failure "boom") "0xA").result = Except.ok s)
  ∧ (∃ s, (get_wallet_nfts (some "k") "base" (fun _ => HttpOutcome.failure "boom") "0xA").result = Except.ok s)
  ∧ (∃ s, (get_token_pairs (some "k") "base" (fun _ => HttpOutcome.failure "boom") "0xA").result = Except.ok s)
  ∧ (∃ s, (get_trending_tokens (some "k") (fun _ => HttpOutcome.failure "boom") 80 100000).result = Except.ok s) := by
  have h := queries_return_strings_on_shaped_responses (some "k") "base" "0xA"
    (HttpOutcome.failure "boom") 80 100000
  exact ⟨h.1 (by decide), h.2.1 (by decide), h.2.2.1 (by decide), h.2.2.2.1,
    h.2.2.2.2.1 (by decide), h.2.2.2.2.2 (by decide)⟩

/-- C2, counterexample: with the API key absent, `get_wallet_tokens` still
sends its HTTP request and returns a transport-error text, not a
configuration-error text. -/
theorem wallet_tokens_sends_request_without_key :
    (get_wallet_tokens none "base" (fun _ => HttpOutcome.failure "connection refused") "0xWallet").sent.length = 1
  ∧ (get_wallet_tokens none "base" (fun _ => HttpOutcome.failure "connection refused") "0xWallet").result
      = Except.ok "Error fetching wallet tokens: connection refused" :=
  ⟨rfl, rfl⟩

/-- C2 (amended): only `get_token_metadata` checks the API key: with the key
unset it returns the configuration-error text and sends no request, while
each of the other five query operations builds and sends its one request
regardless. -/
theorem only_metadata_checks_api_key (nid addr : String) (out : HttpOutcome) (ss mc : Int) :
    ((get_token_metadata none nid (fun _ => out) addr).result
       = Except.ok "Error: Moralis API key is missing. Please set the MORALIS_API_KEY environment variable.")
  ∧ (get_token_metadata none nid (fun _ => out) addr).sent = []
  ∧ (get_wallet_tokens none nid (fun _ => out) addr).sent.length = 1
  ∧ (get_token_details none nid (fun _ => out) addr).sent.length = 1
  ∧ (get_wallet_nfts none nid (fun _ => out) addr).sent.length = 1
  ∧ (get_token_pairs none nid (fun _ => out) addr).sent.length = 1
  ∧ (get_trending_tokens none (fun _ => out) ss mc).sent.length = 1 :=
  ⟨rfl, rfl, rfl, rfl, rfl, rfl, rfl⟩

/-- C3, counterexample: an empty trending-token list does not yield a
"no data found" message: `get_trending_tokens` returns the bare header,
which is exactly a report with zero data blocks. -/
theorem trending_empty_returns_bare_header :
    (get_trending_tokens (some "k") (fun _ => HttpOutcome.response 200 (Json.arr []) "") 80 100000).result
      = Except.ok "Trending Tokens:\n" := rfl

/-- C3 (amended): `get_token_metadata`, `get_wallet_tokens` and
`get_token_pairs` answer an empty result set with a distinct no-data
message that is not `"Error "`-prefixed; `get_trending_tokens` instead
returns the bare header with zero blocks. -/
theorem empty_results_messages (k : Option String) (nid addr : String)
    (hk : envTruthy k = true) :
    ((get_token_metadata k nid (fun _ => HttpOutcome.response 200 (Json.arr []) "") addr).result
       = Except.ok "No metadata found for the provided token address.")
  ∧ ¬ ("Error ".data <+: "No metadata found for the provided token address.".data)
  ∧ ((get_wallet_tokens k nid (fun _ => HttpOutcome.response 200 (Json.obj [("result", Json.arr [])]) "") addr).result
       = Except.ok ("No tokens found for wallet " ++ addr ++ "."))
  ∧ ¬ ("Error ".data <+: ("No tokens found for wallet " ++ addr ++ ".").data)
  ∧ ((get_token_pairs k nid (fun _ => HttpOutcome.response 200 (Json.obj [("pairs", Json.arr [])]) "") addr).result
       = Except.ok ("No trading pairs found for token " ++ addr ++ "."))
  ∧ ¬ ("Error ".data <+: ("No trading pairs found for token " ++ addr ++ ".").data)
  ∧ ((get_trending_tokens k (fun _ => HttpOutcome.response 200 (Json.arr []) "") 80 100000).result
       = Except.ok "Trending Tokens:\n") := by
  refine ⟨?_, by decide, rfl, ?_, rfl, ?_, rfl⟩
  · simp [get_token_metadata, hk, catchRequestException, raiseForStatus, pyTruthy,
      Bind.bind, Except.bind]
  · exact not_error_prefix_of_head ("No tokens found for wallet " ++ addr) "." 'N'
      ("o tokens found for wallet ".data ++ addr.data)
      (by rw [String.data_append]; rfl) (by decide)
  · exact not_error_prefix_of_head ("No trading pairs found for token " ++ addr) "." 'N'
      ("o trading pairs found for token ".data ++ addr.data)
      (by rw [String.data_append]; rfl) (by decide)

/-- Witness for the amended C3 at concrete arguments. -/
theorem empty_results_messages_witness :
    ((get_token_metadata (some "k") "base" (fun _ => HttpOutcome.response 200 (Json.arr []) "") "0xW").result
       = Except.ok "No metadata found for the provided token address.")
  ∧ ¬ ("Error ".data <+: "No metadata found for the provided token address.".data)
  ∧ ((get_wallet_tokens (some "k") "base" (fun _ => HttpOutcome.response 200 (Json.obj [("result", Json.arr [])]) "") "0xW").result
       = Except.ok ("No tokens found for wallet " ++ "0xW" ++ "."))
  ∧ ¬ ("Error ".data <+: ("No tokens found for wallet " ++ "0xW" ++ ".").data)
  ∧ ((get_token_pairs (some "k") "base" (fun _ => HttpOutcome.response 200 (Json.obj [("pairs", Json.arr [])]) "") "0xW").result
       = Except.ok ("No trading pairs found for token " ++ "0xW" ++ "."))
  ∧ ¬ ("Error ".data <+: ("No trading pairs found for token " ++ "0xW" ++ ".").data)
  ∧ ((get_trending_tokens (some "k") (fun _ => HttpOutcome.response 200 (Json.arr []) "") 80 100000).result
       = Except.ok "Trending Tokens:\n") :=
  empty_results_messages (some "k") "base" "0xW" (by decide)

lemma get_token_metadata_error_text (k : Option String) (nid addr : String)
    (out : HttpOutcome) (hk : envTruthy k = true) (hout : isHttpFailureOutcome out = true) :
    ∃ m, (get_token_metadata k nid (fun _ => out) addr).result
      = Except.ok ("Error fetching token metadata: " ++ m) := by
  cases out with
  | failure msg =>
    exact ⟨msg, by simp [get_token_metadata, hk, catchRequestException]⟩
  | response status jbody text =>
    have hs : 400 ≤ status ∧ status < 600 := of_decide_eq_true hout
    refine ⟨raiseErrMsg status "https://deep-index.moralis.io/api/v2.2/erc20/metadata", ?_⟩
    simp [get_token_metadata, hk, catchRequestException, raiseForStatus, hs,
      Bind.bind, Except.bind]

lemma get_wallet_tokens_error_text (k : Option String) (nid addr : String)
    (out : HttpOutcome) (hout : isHttpFailureOutcome out = true) :
    ∃ m, (get_wallet_tokens k nid (fun _ => out) addr).result
      = Except.ok ("Error fetching wallet tokens: " ++ m) := by
  cases out with
  | failure msg => exact ⟨msg, rfl⟩
  | response status jbody text =>
    have hs : 400 ≤ status ∧ status < 600 := of_decide_eq_true hout
    refine ⟨raiseErrMsg status ("https://deep-index.moralis.io/api/v2.2/wallets/" ++ addr ++ "/tokens"), ?_⟩
    simp [get_wallet_tokens, catchRequestException, raiseForStatus, hs,
      Bind.bind, Except.bind]

lemma get_token_details_error_text (k : Option String) (nid addr : String)
    (out : HttpOutcome) (hout : isHttpFailureOutcome out = true) :
    ∃ m, (get_token_details k nid (fun _ => out) addr).result
      = Except.ok ("Error fetching token details: " ++ m) := by
  cases out with
  | failure msg => exact ⟨msg, rfl⟩
  | response status jbody text =>
    have hs : 400 ≤ status ∧ status < 600 := of_decide_eq_true hout
    refine ⟨raiseErrMsg status "https://deep-index.moralis.io/api/v2.2/discovery/token", ?_⟩
    simp [get_token_details, catchRequestException, raiseForStatus, hs,
      Bind.bind, Except.bind]

lemma get_wallet_nfts_error_text (k : Option String) (nid addr : String)
    (out : HttpOutcome) (hout : isHttpFailureOutcome out = true) :
    ∃ m, (get_wallet_nfts k nid (fun _ => out) addr).result
      = Except.ok ("Error fetching wallet NFTs: " ++ m) := by
  cases out with
  | failure msg => exact ⟨msg, rfl⟩
  | response status jbody text =>
    have hs : 400 ≤ status ∧ status < 600 := of_decide_eq_true hout
    refine ⟨raiseErrMsg status ("https://deep-index.moralis.io/api/v2.2/" ++ addr ++ "/nft"), ?_⟩
    simp [get_wallet_nfts, catchRequestException, raiseForStatus, hs,
      Bind.bind, Except.bind]

lemma get_token_pairs_error_text (k : Option String) (nid addr : String)
    (out : HttpOutcome) (hout : isHttpFailureOutcome out = true) :
    ∃ m, (get_token_pairs k nid (fun _ => out) addr).result
      = Except.ok ("Error fetching token pairs: " ++ m) := by
  cases out with
  | failure msg => exact ⟨msg, rfl⟩
  | response status jbody text =>
    have hs : 400 ≤ status ∧ status < 600 := of_decide_eq_true hout
    refine ⟨raiseErrMsg status ("https://deep-index.moralis.io/api/v2.2/erc20/" ++ addr ++ "/pairs"), ?_⟩
    simp [get_token_pairs, catchRequestException, raiseForStatus, hs,
      Bind.bind, Except.bind]

lemma get_trending_tokens_error_text (k : Option String) (out : HttpOutcome) (ss mc : Int)
    (hout : isHttpFailureOutcome out = true) :
    ∃ m, (get_trending_tokens k (fun _ => out) ss mc).result
      = Except.ok ("Error fetching trending tokens: " ++ m) := by
  cases out with
  | failure msg => exact ⟨msg, rfl⟩
  | response status jbody text =>
    have hs : 400 ≤ status ∧ status < 600 := of_decide_eq_true hout
    refine ⟨raiseErrMsg status "https://deep-index.moralis.io/api/v2.2/discovery/tokens/trending", ?_⟩
    simp [get_trending_tokens, catchRequestException, raiseForStatus, hs,
      Bind.bind, Except.bind]

/-- C4: on any transport failure or HTTP error status (what
`raise_for_status` rejects, codes in [400, 600)), every query function
returns a string beginning with `"Error "` that names the operation
(`"Error fetching <subject>: <cause>"`); the failure never propagates as a
raised fault.  The metadata function reaches its request only when the API
key is set. -/
theorem http_failures_become_error_text (k : Option String) (nid addr : String)
    (out : HttpOutcome) (ss mc : Int)
    (hk : envTruthy k = true) (hout : isHttpFailureOutcome out = true) :
    (∃ s, (get_token_metadata k nid (fun _ => out) addr).result = Except.ok s
       ∧ "Error ".data <+: s.data ∧ "Error fetching token metadata:".data <+: s.data)
  ∧ (∃ s, (get_wallet_tokens k nid (fun _ => out) addr).result = Except.ok s
       ∧ "Error ".data <+: s.data ∧ "Error fetching wallet tokens:".data <+: s.data)
  ∧ (∃ s, (get_token_details k nid (fun _ => out) addr).result = Except.ok s
       ∧ "Error ".data <+: s.data ∧ "Error fetching token details:".data <+: s.data)
  ∧ (∃ s, (get_wallet_nfts k nid (fun _ => out) addr).result = Except.ok s
       ∧ "Error ".data <+: s.data ∧ "Error fetching wallet NFTs:".data <+: s.data)
  ∧ (∃ s, (get_token_pairs k nid (fun _ => out) addr).result = Except.ok s
       ∧ "Error ".data <+: s.data ∧ "Error fetching token pairs:".data <+: s.data)
  ∧ (∃ s, (get_trending_tokens k (fun _ => out) ss mc).result = Except.ok s
       ∧ "Error ".data <+: s.data ∧ "Error fetching trending tokens:".data <+: s.data) := by
  obtain ⟨m1, h1⟩ := get_token_metadata_error_text k nid addr out hk hout
  obtain ⟨m2, h2⟩ := get_wallet_tokens_error_text k nid addr out hout
  obtain ⟨m3, h3⟩ := get_token_details_error_text k nid addr out hout
  obtain ⟨m4, h4⟩ := get_wallet_nfts_error_text k nid addr out hout
  obtain ⟨m5, h5⟩ := get_token_pairs_error_text k nid addr out hout
  obtain ⟨m6, h6⟩ := get_trending_tokens_error_text k out ss mc hout
  exact ⟨⟨_, h1, errPrefix_append _ m1 (by decide), subjPrefix_append _ _ m1 (by decide)⟩,
    ⟨_, h2, errPrefix_append _ m2 (by decide), subjPrefix_append _ _ m2 (by decide)⟩,
    ⟨_, h3, errPrefix_append _ m3 (by decide), subjPrefix_append _ _ m3 (by decide)⟩,
    ⟨_, h4, errPrefix_append _ m4 (by decide), subjPrefix_append _ _ m4 (by decide)⟩,
    ⟨_, h5, errPrefix_append _ m5 (by decide), subjPrefix_append _ _ m5 (by decide)⟩,
    ⟨_, h6, errPrefix_append _ m6 (by decide), subjPrefix_append _ _ m6 (by decide)⟩⟩

/-- Witness for C4 at a concrete transport failure and a concrete 404. -/
theorem http_failures_become_error_text_witness :
    (∃ s, (get_wallet_tokens (some "k") "base" (fun _ => HttpOutcome.failure "timeout") "0xA").result = Except.ok s
       ∧ "Error ".data <+: s.data ∧ "Error fetching wallet tokens:".data <+: s.data)
  ∧ (∃ s, (get_token_pairs (some "k") "base" (fun _ => HttpOutcome.response 404 Json.null "") "0xA").result = Except.ok s
       ∧ "Error ".data <+: s.data ∧ "Error fetching token pairs:".data <+: s.data) :=
  ⟨(http_failures_become_error_text (some "k") "base" "0xA"
      (HttpOutcome.failure "timeout") 80 100000 (by decide) (by decide)).2.1,
   (http_failures_become_error_text (some "k") "base" "0xA"
      (HttpOutcome.response 404 Json.null "") 80 100000 (by decide) (by decide)).2.2.2.2.1⟩

/-- C5: with neither parameter supplied, the trending-tokens tool validates
to the defaults 80 and 100000 and the request carries them; a
security_score of 150 fails the schema bounds check, so the bound function
never runs and no request is built. -/
theorem trending_defaults_and_bounds (k : Option String) (out : HttpOutcome) (mc : Option Int) :
    (get_trending_tokens_tool k (fun _ => out) none none
       = Except.ok (get_trending_tokens k (fun _ => out) 80 100000))
  ∧ ((get_trending_tokens k (fun _ => out) 80 100000).sent.map HttpRequest.params
       = [[("chain", "base"), ("security_score", "80"), ("min_market_cap", "100000")]])
  ∧ (get_trending_tokens_tool k (fun _ => out) (some 150) mc
       = Except.error "security_score: input should be less than or equal to 100") :=
  ⟨rfl, rfl, rfl⟩

/-- C6: each call of the five wallet-aware query functions derives its chain
parameter from the network id read at that call (so nothing is cached
across calls), mapping mainnet identifiers to `"base"` and anything else to
`"base sepolia"`; `get_trending_tokens` always sends `"base"`. -/
theorem chain_selector_per_call (k : Option String) (nid addr : String)
    (out : HttpOutcome) (ss mc : Int) (hk : envTruthy k = true) :
    sentChains (get_token_metadata k nid (fun _ => out) addr) = [some (chainFor nid)]
  ∧ sentChains (get_wallet_tokens k nid (fun _ => out) addr) = [some (chainFor nid)]
  ∧ sentChains (get_token_details k nid (fun _ => out) addr) = [some (chainFor nid)]
  ∧ sentChains (get_wallet_nfts k nid (fun _ => out) addr) = [some (chainFor nid)]
  ∧ sentChains (get_token_pairs k nid (fun _ => out) addr) = [some (chainFor nid)]
  ∧ sentChains (get_trending_tokens k (fun _ => out) ss mc) = [some "base"]
  ∧ chainFor nid = (if nid = "base" ∨ nid = "base-mainnet" then "base" else "base sepolia") := by
  refine ⟨?_, rfl, rfl, rfl, rfl, rfl, rfl⟩
  simp [get_token_metadata, hk, sentChains]

/-- Witness for C6 on both a mainnet and a testnet network id. -/
theorem chain_selector_per_call_witness :
    (sentChains (get_wallet_tokens (some "k") "base-mainnet"
        (fun _ => HttpOutcome.failure "x") "0xA") = [some (chainFor "base-mainnet")])
  ∧ (sentChains (get_wallet_tokens (some "k") "base-sepolia"
        (fun _ => HttpOutcome.failure "x") "0xA") = [some (chainFor "base-sepolia")])
  ∧ chainFor "base-mainnet" = "base"
  ∧ chainFor "base-sepolia" = "base sepolia" :=
  ⟨(chain_selector_per_call (some "k") "base-mainnet" "0xA"
      (HttpOutcome.failure "x") 80 100000 (by decide)).2.1,
   (chain_selector_per_call (some "k") "base-sepolia" "0xA"
      (HttpOutcome.failure "x") 80 100000 (by decide)).2.1,
   by decide, by decide⟩

set_option maxRecDepth 4096 in
/-- C7: against the mocked single-pair response, `get_token_pairs` returns
one block holding the three documented lines, prefixed by the
trading-pairs header for the requested token. -/
theorem token_pairs_example_end_to_end :
    ((get_token_pairs (some "k") "base" (fun _ => HttpOutcome.response 200 examplePairsBody "") "0xABC...").result
      = Except.ok ("Trading pairs for token 0xABC...:\nPair: WETH/USDC\nPrice (USD): 3000.5\n24hr Price Change (%): -1.2\nLiquidity (USD): 500000\nExchange Address: 0xEx\nBase Token: Wrapped Ether (WETH)\nQuote Token: USD Coin (USDC)\n"))
  ∧ "Pair: WETH/USDC" ∈ strLines "Trading pairs for token 0xABC...:\nPair: WETH/USDC\nPrice (USD): 3000.5\n24hr Price Change (%): -1.2\nLiquidity (USD): 500000\nExchange Address: 0xEx\nBase Token: Wrapped Ether (WETH)\nQuote Token: USD Coin (USDC)\n"
  ∧ "Price (USD): 3000.5" ∈ strLines "Trading pairs for token 0xABC...:\nPair: WETH/USDC\nPrice (USD): 3000.5\n24hr Price Change (%): -1.2\nLiquidity (USD): 500000\nExchange Address: 0xEx\nBase Token: Wrapped Ether (WETH)\nQuote Token: USD Coin (USDC)\n"
  ∧ "24hr Price Change (%): -1.2" ∈ strLines "Trading pairs for token 0xABC...:\nPair: WETH/USDC\nPrice (USD): 3000.5\n24hr Price Change (%): -1.2\nLiquidity (USD): 500000\nExchange Address: 0xEx\nBase Token: Wrapped Ether (WETH)\nQuote Token: USD Coin (USDC)\n"
  ∧ "Trading pairs for token 0xABC...:".data <+: ("Trading pairs for token 0xABC...:\nPair: WETH/USDC\nPrice (USD): 3000.5\n24hr Price Change (%): -1.2\nLiquidity (USD): 500000\nExchange Address: 0xEx\nBase Token: Wrapped Ether (WETH)\nQuote Token: USD Coin (USDC)\n").data :=
  ⟨rfl, by decide, by decide, by decide, by decide⟩

/-- C8, counterexample: a price field truly absent from the upstream payload
is not rendered as "N/A": the bracket access raises a `KeyError` that
escapes `get_wallet_tokens`. -/
theorem absent_usd_price_raises :
    (get_wallet_tokens (some "k") "base"
        (fun _ => HttpOutcome.response 200 missingPriceBody "") "0xW").result
      = Except.error (PyExc.keyError "usd_price") := rfl

set_option maxRecDepth 4096 in
/-- C8 (amended): a `usd_price` key present with a null value renders as the
literal placeholder "N/A" — not as an empty string and not as an omitted
line — so the report has the same line shape as for a priced token; a key
entirely absent instead raises a `KeyError`. -/
theorem null_usd_price_renders_na :
    ((get_wallet_tokens (some "k") "base"
        (fun _ => HttpOutcome.response 200 (walletBodyWithPrice Json.null) "") "0xW").result
      = Except.ok "Tokens held by 0xW:\nToken: Zero (ZRO)\nBalance: 1 ZRO\nContract Address: 0xT\nVerified: Yes\nPrice (USD): N/A\n")
  ∧ "Price (USD): N/A" ∈ strLines "Tokens held by 0xW:\nToken: Zero (ZRO)\nBalance: 1 ZRO\nContract Address: 0xT\nVerified: Yes\nPrice (USD): N/A\n"
  ∧ ((get_wallet_tokens (some "k") "base"
        (fun _ => HttpOutcome.response 200 (walletBodyWithPrice (Json.str "1.23")) "") "0xW").result
      = Except.ok "Tokens held by 0xW:\nToken: Zero (ZRO)\nBalance: 1 ZRO\nContract Address: 0xT\nVerified: Yes\nPrice (USD): 1.23\n")
  ∧ (strLines "Tokens held by 0xW:\nToken: Zero (ZRO)\nBalance: 1 ZRO\nContract Address: 0xT\nVerified: Yes\nPrice (USD): N/A\n").length
      = (strLines "Tokens held by 0xW:\nToken: Zero (ZRO)\nBalance: 1 ZRO\nContract Address: 0xT\nVerified: Yes\nPrice (USD): 1.23\n").length :=
  ⟨rfl, by decide, rfl, by decide⟩

/-- C10: the `or "N/A"` fallback fires on every falsy price value — genuine
zero and the empty string included, not only null — so a token whose true
price is 0 is indistinguishable in the report from one with no price
data. -/
theorem falsy_usd_price_renders_na (v : Json) (h : pyTruthy v = false) :
    ((get_wallet_tokens (some "k") "base"
        (fun _ => HttpOutcome.response 200 (walletBodyWithPrice v) "") "0xW").result
      = Except.ok "Tokens held by 0xW:\nToken: Zero (ZRO)\nBalance: 1 ZRO\nContract Address: 0xT\nVerified: Yes\nPrice (USD): N/A\n")
  ∧ ((get_wallet_tokens (some "k") "base"
        (fun _ => HttpOutcome.response 200 (walletBodyWithPrice v) "") "0xW").result
      = (get_wallet_tokens (some "k") "base"
        (fun _ => HttpOutcome.response 200 (walletBodyWithPrice Json.null) "") "0xW").result) := by
  have key : (get_wallet_tokens (some "k") "base"
        (fun _ => HttpOutcome.response 200 (walletBodyWithPrice v) "") "0xW").result
      = Except.ok ("Tokens held by 0xW:\n" ++ String.intercalate "\n"
          ["Token: Zero (ZRO)\nBalance: 1 ZRO\nContract Address: 0xT\nVerified: Yes\nPrice (USD): "
            ++ (if pyTruthy v then pyStr v else "N/A") ++ "\n"]) := rfl
  constructor
  · rw [key, h]
    rfl
  · rw [key, h]
    rfl

/-- Witness for C10 at price 0 and at the empty string. -/
theorem falsy_usd_price_renders_na_witness :
    ((get_wallet_tokens (some "k") "base"
        (fun _ => HttpOutcome.response 200 (walletBodyWithPrice (Json.num 0)) "") "0xW").result
      = Except.ok "Tokens held by 0xW:\nToken: Zero (ZRO)\nBalance: 1 ZRO\nContract Address: 0xT\nVerified: Yes\nPrice (USD): N/A\n")
  ∧ ((get_wallet_tokens (some "k") "base"
        (fun _ => HttpOutcome.response 200 (walletBodyWithPrice (Json.str ""))  "") "0xW").result
      = (get_wallet_tokens (some "k") "base"
        (fun _ => HttpOutcome.response 200 (walletBodyWithPrice Json.null) "") "0xW").result) :=
  ⟨(falsy_usd_price_renders_na (Json.num 0) (by decide)).1,
   (falsy_usd_price_renders_na (Json.str "") (by decide)).2⟩

/-- C9: any user input whose lowercase form is "exit" ends the chat loop by
the exit branch, forwarding nothing further to the decision loop. -/
theorem chat_exit_terminates (s : String) (rest : List String)
    (h : pyLower s = "exit") :
    run_chat_mode (s :: rest) = ([], ChatEnd.exited) := by
  simp [run_chat_mode, h]

/-- Witness for C9 at the inputs "EXIT" and "Exit". -/
theorem chat_exit_terminates_witness :
    run_chat_mode ["EXIT", "what is trending"] = ([], ChatEnd.exited)
  ∧ run_chat_mode ["Exit"] = ([], ChatEnd.exited) :=
  ⟨chat_exit_terminates "EXIT" ["what is trending"] (by decide),
   chat_exit_terminates "Exit" [] (by decide)⟩
